import Mathlib

/-!
Shallow embedding of `main.py` of the alignmentPolish repository.

The program's own code (the `View` class, `AllCandidatesInRegion`,
`write_json`, `parse_region`, `test`, `do_parallel`, and the `__main__`
dispatch) is translated into Lean definitions below.  The external
collaborators (`BamHandler`, `FastaHandler`, `CandidateFinder`,
`AlleleFinder`) live in unseen modules; they are abstracted as an
environment of oracle functions (`Env`), exactly at the interface
`parse_region` uses them through.
-/

namespace AlignmentPolish

/-- Embeds `each_segment_length = int(math.ceil(whole_length / max_threads))`
(main.py line 178).  `whole_length` is a chromosome length (a natural
number); `max_threads` is the user-supplied shard count, an arbitrary
integer.  For a positive divisor `⌈L/N⌉ = (L + N - 1) / N` in natural
division; for a negative divisor Python's `math.ceil` of the negative
quotient is `-(L / |N|)` (floor division negated).  The `N = 0` case is
never reached: the caller raises `ZeroDivisionError` first. -/
def each_segment_length (whole_length : Nat) (max_threads : Int) : Int :=
  if 0 < max_threads then
    ((whole_length + max_threads.toNat - 1) / max_threads.toNat : Nat)
  else
    -((whole_length / max_threads.natAbs : Nat) : Int)

/-- The arguments `view.parse_region` is dispatched with for one shard:
`Process(target=view.parse_region, args=(start_position, end_position, json_out))`
together with the `View`'s chromosome (main.py lines 182-189). -/
structure RegionSpec where
  chromosome_name : String
  start_position : Int
  end_position : Int
  json_out : Bool
deriving DecidableEq, Repr

/-- Process-level events `do_parallel` can perform on a worker: `p.start()`
or `p.join()`.  The source only ever calls `p.start()` (main.py line 190);
`join` is in the vocabulary so that its absence from the trace is a
statement about the code, not about the type. -/
inductive ProcEvent where
  | start (spec : RegionSpec)
  | join (spec : RegionSpec)
deriving DecidableEq, Repr

/-- True iff the event is a `p.start()` call. -/
def ProcEvent.isStart : ProcEvent → Bool
  | .start _ => true
  | .join _ => false

/-- The trace of worker dispatches of `do_parallel`'s loop
(main.py lines 180-190): for `i in range(max_threads)` it builds a `View`
and starts a `Process` on `view.parse_region(i*seg, (i+1)*seg + 1000, json_out)`.
`range` of a non-positive integer is empty, hence `toNat`. -/
def do_parallel_events (chr_name : String) (whole_length : Nat) (max_threads : Int)
    (json_out : Bool) : List ProcEvent :=
  let seg := each_segment_length whole_length max_threads
  (List.range max_threads.toNat).map fun (i : Nat) =>
    ProcEvent.start
      { chromosome_name := chr_name
        start_position := (i : Int) * seg
        end_position := ((i : Int) + 1) * seg + 1000
        json_out := json_out }

/-- Embeds `do_parallel(chr_name, bam_file, ref_file, json_out, output_dir, max_threads)`
(main.py lines 162-190), with the chromosome length already fetched from the
reference (`fasta_handler.get_chr_sequence_length`).  Computing
`each_segment_length` divides by `max_threads`, so `max_threads = 0` raises
`ZeroDivisionError`; otherwise the loop starts one process per `i` in
`range(max_threads)` and the function returns without joining any of them. -/
def do_parallel (chr_name : String) (whole_length : Nat) (max_threads : Int)
    (json_out : Bool) : Except String (List ProcEvent) :=
  if max_threads = 0 then .error "ZeroDivisionError"
  else .ok (do_parallel_events chr_name whole_length max_threads json_out)

/-- The shard coordinate ranges `[i*⌈L/N⌉, (i+1)*⌈L/N⌉ + 1000)` computed by
`do_parallel`'s loop for a positive shard count `N` (main.py lines 178-188),
in natural-number coordinates. -/
def shard_ranges (whole_length num_shards : Nat) : List (Nat × Nat) :=
  let seg := (whole_length + num_shards - 1) / num_shards
  (List.range num_shards).map fun i => (i * seg, (i + 1) * seg + 1000)

/-- Embeds `AllCandidatesInRegion.__init__` and `add_candidate_to_list` (main.py lines
47-69): the region's coordinates plus the list the per-window candidate-list
objects are appended to.  `α` is the type of the opaque candidate-list
objects produced by `AlleleFinder.generate_candidate_allele_list`. -/
structure AllCandidatesInRegion (α : Type) where
  chromosome_name : String
  start_position : Nat
  end_position : Nat
  all_candidates : List α
deriving DecidableEq, Repr

/-- A JSON value as far as this program's own serialization shape goes
(`reprJSON`, main.py lines 71-77): a string, a number, or the list of the
opaque candidate-list objects. -/
inductive JVal (α : Type) where
  | jstr (s : String)
  | jnat (n : Nat)
  | jlist (xs : List α)
deriving DecidableEq, Repr

/-- Embeds `AllCandidatesInRegion.reprJSON` (main.py lines 71-77): the dictionary
`dict(chromosome_name=..., start_position=..., end_position=..., all_candidates=...)`
in its insertion order, as an association list. -/
def AllCandidatesInRegion.reprJSON (r : AllCandidatesInRegion α) : List (String × JVal α) :=
  [("chromosome_name", .jstr r.chromosome_name),
   ("start_position", .jnat r.start_position),
   ("end_position", .jnat r.end_position),
   ("all_candidates", .jlist r.all_candidates)]

/-- One step of sorted insertion, comparing association-list entries by key. -/
def insert_by_key (x : String × JVal α) : List (String × JVal α) → List (String × JVal α)
  | [] => [x]
  | y :: ys => if x.1 ≤ y.1 then x :: y :: ys else y :: insert_by_key x ys

/-- Embeds the key ordering of `json.dumps(..., sort_keys=True)` (main.py line 105): it emits the
dictionary's key/value pairs ordered by key; modelled as an insertion sort
of the association list by key. -/
def dumps_sort_keys (kvs : List (String × JVal α)) : List (String × JVal α) :=
  kvs.foldr insert_by_key []

/-- The file name built by `write_json` (main.py lines 103-104):
`"Candidates" + '_' + chromosome_name + '_' + str(start) + '_' + str(end) + ".json"`. -/
def json_file_name (chromosome_name : String) (start stop : Nat) : String :=
  "Candidates" ++ "_" ++ chromosome_name ++ "_" ++ toString start ++ "_" ++ toString stop ++ ".json"

/-- The pure content of one `write_json` call (main.py lines 93-105): the full
path of the artifact and the JSON document (keys sorted) written into it. -/
def write_json_artifact (output_dir chromosome_name : String) (start stop : Nat)
    (all_candidate_lists : AllCandidatesInRegion α) : String × List (String × JVal α) :=
  (output_dir ++ "json_output/" ++ json_file_name chromosome_name start stop,
   dumps_sort_keys all_candidate_lists.reprJSON)

/-- Embeds `os.mkdir(d)`: it creates directory `d` only when its parent directory
exists (otherwise Python raises `FileNotFoundError`); the filesystem is
modelled as the list of existing directories. -/
def os_mkdir (dirs : List String) (parent d : String) : Except String (List String) :=
  if parent ∈ dirs then .ok (d :: dirs) else .error "FileNotFoundError"

/-- Embeds `View.write_json` with its filesystem effects (main.py lines 93-105):
if `output_dir + "json_output/"` does not exist it is created with
`os.mkdir`; then the artifact is opened for writing inside it.  Returns the
updated directory list together with the path and document written. -/
def write_json_io (dirs : List String) (output_dir chromosome_name : String)
    (start stop : Nat) (all_candidate_lists : AllCandidatesInRegion α) :
    Except String (List String × String × List (String × JVal α)) :=
  let sub := output_dir ++ "json_output/"
  match (if sub ∈ dirs then Except.ok dirs else os_mkdir dirs output_dir sub :
      Except String (List String)) with
  | .error e => .error e
  | .ok dirs' =>
    if sub ∈ dirs' then
      .ok (dirs', write_json_artifact output_dir chromosome_name start stop all_candidate_lists)
    else
      .error "FileNotFoundError"

/-- The unseen external modules (`BamHandler`, `FastaHandler`,
`CandidateFinder`, `AlleleFinder`), abstracted at exactly the interface
`View.parse_region` consumes them through.  `ρ` is the opaque type of the
read collection, `π` of pileup columns, `α` of candidate-list objects.
`get_candidate_windows` stands for the whole
`CandidateFinder(...)`/`parse_reads`/`merge_positions`/`get_candidate_windows`
pipeline (main.py lines 116-129). -/
structure Env (ρ π α : Type) where
  get_reads : String → Nat → Nat → ρ
  get_candidate_windows : ρ → String → Nat → Nat → List (String × Nat × Nat)
  get_sequence : String → Nat → Nat → String
  get_pileupcolumns : String → Nat → Nat → π
  run_allele_finder : String → Nat → Nat → π → String → α

/-- A fetch against the external sources issued inside `parse_region`'s
per-window loop (main.py lines 133-137). -/
inductive Fetch where
  | seq (chromosome : String) (start stop : Nat)
  | pileup (chromosome : String) (start stop : Nat)
deriving DecidableEq, Repr

/-- The windows `parse_region` iterates over: `candidate_finder.get_candidate_windows()`
on the reads fetched for the region (main.py lines 112-129). -/
def region_windows (env : Env ρ π α) (chromosome_name : String)
    (start_position end_position : Nat) : List (String × Nat × Nat) :=
  env.get_candidate_windows (env.get_reads chromosome_name start_position end_position)
    chromosome_name start_position end_position

/-- The body of `parse_region`'s per-window loop (main.py lines 133-143):
fetch the reference sequence and pileup columns for `(window_start, window_end + 1)`
and run the `AlleleFinder` pipeline on them, producing one candidate-list
object. -/
def window_candidates (env : Env ρ π α) (w : String × Nat × Nat) : α :=
  env.run_allele_finder w.1 w.2.1 w.2.2
    (env.get_pileupcolumns w.1 w.2.1 (w.2.2 + 1))
    (env.get_sequence w.1 w.2.1 (w.2.2 + 1))

/-- The two external fetches the loop body issues for one window, in program
order (main.py lines 135-137). -/
def window_fetches (w : String × Nat × Nat) : List Fetch :=
  [.seq w.1 w.2.1 (w.2.2 + 1), .pileup w.1 w.2.1 (w.2.2 + 1)]

/-- Embeds `View.parse_region(start_position, end_position, json_out)` (main.py
lines 107-151): build the windows, run the loop appending one candidate-list
object per window into an `AllCandidatesInRegion`, and, when `json_out` is
set, serialize it with `write_json`.  Returns the assembled in-memory
result, the trace of per-window external fetches, and the optional
artifact. -/
def View.parse_region (env : Env ρ π α) (output_dir chromosome_name : String)
    (start_position end_position : Nat) (json_out : Bool) :
    AllCandidatesInRegion α × List Fetch × Option (String × List (String × JVal α)) :=
  let candidate_windows := region_windows env chromosome_name start_position end_position
  let all_candidate_lists : AllCandidatesInRegion α :=
    { chromosome_name := chromosome_name
      start_position := start_position
      end_position := end_position
      all_candidates := candidate_windows.map (window_candidates env) }
  let fetches := candidate_windows.flatMap window_fetches
  let artifact :=
    if json_out then
      some (write_json_artifact output_dir chromosome_name start_position end_position
        all_candidate_lists)
    else none
  (all_candidate_lists, fetches, artifact)

/-- Embeds `View.test` (main.py lines 153-159): one synchronous
`parse_region(start_position=100000, end_position=200000, json_out)` call. -/
def View.test (env : Env ρ π α) (output_dir chromosome_name : String) (json_out : Bool) :
    AllCandidatesInRegion α × List Fetch × Option (String × List (String × JVal α)) :=
  View.parse_region env output_dir chromosome_name 100000 200000 json_out

/-- What `__main__` decides to run (main.py lines 254-261). -/
inductive MainAction where
  | run_test (chromosome_name : String) (start_position end_position : Nat) (json_out : Bool)
  | run_parallel (chromosome_name : String) (json_out : Bool) (max_threads : Int)
deriving DecidableEq, Repr

/-- The `__main__` dispatch (main.py lines 254-261): if the `--test` flag is
true, run `view.test` — a single synchronous region over the fixed range
`(100000, 200000)`; otherwise call `do_parallel`. -/
def main_dispatch (test_flag : Bool) (chromosome_name : String) (json_flag : Bool)
    (max_threads : Int) : MainAction :=
  if test_flag then .run_test chromosome_name 100000 200000 json_flag
  else .run_parallel chromosome_name json_flag max_threads

/-- Concrete oracle environment with no candidate windows at all. -/
def env_unit : Env Unit Unit Nat :=
  { get_reads := fun _ _ _ => ()
    get_candidate_windows := fun _ _ _ _ => []
    get_sequence := fun _ _ _ => ""
    get_pileupcolumns := fun _ _ _ => ()
    run_allele_finder := fun _ _ _ _ _ => 0 }

/-- Concrete oracle environment producing a single candidate window. -/
def env_one : Env Unit Unit Nat :=
  { get_reads := fun _ _ _ => ()
    get_candidate_windows := fun _ _ _ _ => [("3", 5, 9)]
    get_sequence := fun _ _ _ => ""
    get_pileupcolumns := fun _ _ _ => ()
    run_allele_finder := fun _ _ _ _ _ => 0 }

/-!  Arithmetic helpers about the ceiling segment length. -/

/-- Ceiling division dominates: `L ≤ N * ((L + N - 1) / N)` for `N ≥ 1`. -/
theorem le_mul_ceil_div (L N : Nat) (h : 1 ≤ N) : L ≤ N * ((L + N - 1) / N) := by
  have h1 := Nat.div_add_mod (L + N - 1) N
  have h2 : (L + N - 1) % N < N := Nat.mod_lt _ (by omega)
  generalize hq : N * ((L + N - 1) / N) = m at h1 ⊢
  generalize hr : (L + N - 1) % N = r at h1 h2
  omega

/-- Strict upper bound from division: `p < (p / c + 1) * c` for `c ≥ 1`. -/
theorem lt_div_succ_mul (p c : Nat) (hc : 0 < c) : p < (p / c + 1) * c := by
  calc p = c * (p / c) + p % c := (Nat.div_add_mod p c).symm
    _ < c * (p / c) + c := Nat.add_lt_add_left (Nat.mod_lt _ hc) _
    _ = (p / c + 1) * c := by ring

/-- For a positive shard count the dispatch succeeds and starts exactly the
workers of `shard_ranges`. -/
theorem do_parallel_eq_shard_ranges (chr : String) (L N : Nat) (json : Bool) (h : 1 ≤ N) :
    do_parallel chr L (N : Int) json =
      .ok ((shard_ranges L N).map fun se =>
        ProcEvent.start ⟨chr, (se.1 : Int), (se.2 : Int), json⟩) := by
  have hN : (0 : Int) < (N : Int) := by exact_mod_cast h
  have hne : (N : Int) ≠ 0 := ne_of_gt hN
  have hseg : each_segment_length L (N : Int) = (((L + N - 1) / N : Nat) : Int) := by
    rw [each_segment_length, if_pos hN, Int.toNat_natCast]
  rw [do_parallel, if_neg hne, do_parallel_events, shard_ranges]
  rw [hseg, Int.toNat_natCast, List.map_map]
  congr 1

/-- C1: for every chromosome length `L` and shard count `N ≥ 1`, `do_parallel`
dispatches exactly the `N` ranges of `shard_ranges`; shard `i` is
`[i*⌈L/N⌉, (i+1)*⌈L/N⌉ + 1000)`; the ranges cover `[0, L]` with no gap; and
consecutive ranges share exactly 1000 coordinates. -/
theorem shard_partitioner_ranges (chr : String) (L N : Nat) (json : Bool) (h : 1 ≤ N) :
    do_parallel chr L (N : Int) json =
      .ok ((shard_ranges L N).map fun se =>
        ProcEvent.start ⟨chr, (se.1 : Int), (se.2 : Int), json⟩) ∧
    (shard_ranges L N).length = N ∧
    (∀ i, i < N →
      (shard_ranges L N)[i]? =
        some (i * ((L + N - 1) / N), (i + 1) * ((L + N - 1) / N) + 1000)) ∧
    (∀ p, p ≤ L → ∃ sh ∈ shard_ranges L N, sh.1 ≤ p ∧ p < sh.2) ∧
    (∀ i, i + 1 < N →
      (Finset.Ico (i * ((L + N - 1) / N)) ((i + 1) * ((L + N - 1) / N) + 1000) ∩
        Finset.Ico ((i + 1) * ((L + N - 1) / N)) ((i + 2) * ((L + N - 1) / N) + 1000)).card
        = 1000) := by
  refine ⟨do_parallel_eq_shard_ranges chr L N json h, ?_, ?_, ?_, ?_⟩
  · simp [shard_ranges]
  · intro i hi
    simp [shard_ranges, List.getElem?_map, List.getElem?_range, hi]
  · intro p hp
    by_cases hc0 : (L + N - 1) / N = 0
    · have hL : L = 0 := by
        have hlt : L + N - 1 < N := by
          have := (Nat.div_eq_zero_iff (by omega : 0 < N)).mp hc0
          omega
        omega
      refine ⟨(0 * ((L + N - 1) / N), (0 + 1) * ((L + N - 1) / N) + 1000),
        List.mem_map.mpr ⟨0, List.mem_range.mpr (by omega), rfl⟩, by omega, ?_⟩
      have : p = 0 := by omega
      omega
    · have hcpos : 0 < (L + N - 1) / N := Nat.pos_of_ne_zero hc0
      set c := (L + N - 1) / N with hc
      refine ⟨(min (p / c) (N - 1) * c, (min (p / c) (N - 1) + 1) * c + 1000),
        List.mem_map.mpr ⟨min (p / c) (N - 1), List.mem_range.mpr (by omega), rfl⟩, ?_, ?_⟩
      · calc min (p / c) (N - 1) * c ≤ p / c * c :=
              Nat.mul_le_mul_right c (min_le_left _ _)
          _ ≤ p := Nat.div_mul_le_self p c
      · rcases le_or_lt (N - 1) (p / c) with hge | hlt
        · rw [min_eq_right hge]
          have hNc : L ≤ N * c := le_mul_ceil_div L N h
          have hsucc : N - 1 + 1 = N := by omega
          calc p ≤ L := hp
            _ ≤ N * c := hNc
            _ = (N - 1 + 1) * c := by rw [hsucc]
            _ < (N - 1 + 1) * c + 1000 := by omega
        · rw [min_eq_left (le_of_lt hlt)]
          have := lt_div_succ_mul p c hcpos
          omega
  · intro i hi
    rw [Finset.Ico_inter_Ico]
    have h1 : i * ((L + N - 1) / N) ≤ (i + 1) * ((L + N - 1) / N) :=
      Nat.mul_le_mul_right _ (by omega)
    have h2 : (i + 1) * ((L + N - 1) / N) + 1000 ≤ (i + 2) * ((L + N - 1) / N) + 1000 :=
      Nat.add_le_add_right (Nat.mul_le_mul_right _ (by omega)) 1000
    rw [max_eq_right h1, min_eq_left h2, Nat.card_Ico]
    exact Nat.add_sub_cancel_left _ _

/-- C1 witness: at `L = 10`, `N = 3` the partitioner computes three ranges. -/
theorem shard_partitioner_ranges_witness : (shard_ranges 10 3).length = 3 :=
  (shard_partitioner_ranges "3" 10 3 false (by decide)).2.1

/-- C7 counterexample: at shard count `N = -1` the run does not fail at all —
`do_parallel` completes normally, computing no shard range and dispatching no
worker, and no error reaches the caller. -/
theorem invalid_shard_count_counterexample :
    do_parallel "3" 1000 (-1) false = Except.ok [] := rfl

/-- C7 amended: a shard count of exactly `0` makes the run fail (with a
`ZeroDivisionError` from the segment-length computation, not a validated
configuration error) before any shard range is computed or worker
dispatched; a negative shard count does not fail: the run silently computes
no shard range, dispatches no worker, and reports nothing. -/
theorem invalid_shard_count_behaviour (chr : String) (L : Nat) (N : Int) (json : Bool)
    (h : N ≤ 0) :
    (N = 0 → do_parallel chr L N json = Except.error "ZeroDivisionError") ∧
    (N < 0 → do_parallel chr L N json = Except.ok []) := by
  constructor
  · intro h0
    simp [do_parallel, h0]
  · intro hneg
    have hne : N ≠ 0 := ne_of_lt hneg
    have ht : N.toNat = 0 := Int.toNat_of_nonpos (le_of_lt hneg)
    simp [do_parallel, hne, do_parallel_events, ht]

/-- C7 witness: the amended statement applied at `N = -2`. -/
theorem invalid_shard_count_behaviour_witness :
    do_parallel "3" 5 (-2) true = Except.ok [] :=
  (invalid_shard_count_behaviour "3" 5 (-2) true (by decide)).2 (by decide)

/-- C9: in the default mode with `N ≥ 1` shards, `do_parallel` succeeds,
its event trace contains exactly `N` events, and every one of them is a
`p.start()` of an independent worker process — no `join`/wait on any worker
ever happens before the function returns. -/
theorem dispatch_fire_and_forget (chr : String) (L : Nat) (N : Int) (json : Bool)
    (h : 1 ≤ N) :
    do_parallel chr L N json = Except.ok (do_parallel_events chr L N json) ∧
    ((do_parallel_events chr L N json).length : Int) = N ∧
    ∀ e ∈ do_parallel_events chr L N json, e.isStart = true := by
  refine ⟨?_, ?_, ?_⟩
  · have hne : N ≠ 0 := by omega
    simp [do_parallel, hne]
  · simp only [do_parallel_events, List.length_map, List.length_range]
    exact Int.toNat_of_nonneg (by omega)
  · intro e he
    simp only [do_parallel_events, List.mem_map, List.mem_range] at he
    obtain ⟨i, _, rfl⟩ := he
    rfl

/-- C9 witness: with two shards the trace has two events and all are starts. -/
theorem dispatch_fire_and_forget_witness :
    ((do_parallel_events "3" 10 2 false).length : Int) = 2 :=
  (dispatch_fire_and_forget "3" 10 2 false (by decide)).2.1

/-- C8: when the test flag is true, `__main__` runs exactly one synchronous
region — the fixed range `(100000, 200000)` on the configured chromosome —
never `do_parallel`; and `View.test` is exactly one `parse_region` call over
that range. -/
theorem test_mode_single_region {ρ π α : Type} (env : Env ρ π α)
    (output_dir chr : String) (test_flag json_flag : Bool) (max_threads : Int)
    (h : test_flag = true) :
    main_dispatch test_flag chr json_flag max_threads =
      MainAction.run_test chr 100000 200000 json_flag ∧
    (∀ c j m, main_dispatch test_flag chr json_flag max_threads ≠
      MainAction.run_parallel c j m) ∧
    View.test env output_dir chr json_flag =
      View.parse_region env output_dir chr 100000 200000 json_flag := by
  subst h
  refine ⟨rfl, ?_, rfl⟩
  intro c j m
  simp [main_dispatch]

/-- C8 witness: the dispatch at a concrete test-mode configuration. -/
theorem test_mode_single_region_witness :
    main_dispatch true "3" false 5 = MainAction.run_test "3" 100000 200000 false :=
  (test_mode_single_region env_unit "output/" "3" true false 5 rfl).1

/-- C2: for every window the Window Detector produced, `parse_region`
fetches both the reference subsequence and the pileup columns for the span
`(window_start, window_end + 1)` — one base longer than the window's own end
coordinate. -/
theorem window_fetches_one_past_end {ρ π α : Type} (env : Env ρ π α)
    (output_dir chr : String) (s e : Nat) (json : Bool) (w : String × Nat × Nat)
    (hw : w ∈ region_windows env chr s e) :
    Fetch.seq w.1 w.2.1 (w.2.2 + 1) ∈ (View.parse_region env output_dir chr s e json).2.1 ∧
    Fetch.pileup w.1 w.2.1 (w.2.2 + 1) ∈ (View.parse_region env output_dir chr s e json).2.1 := by
  have hfe : (View.parse_region env output_dir chr s e json).2.1 =
      (region_windows env chr s e).flatMap window_fetches := rfl
  rw [hfe]
  constructor
  · exact List.mem_flatMap.mpr ⟨w, hw, by simp [window_fetches]⟩
  · exact List.mem_flatMap.mpr ⟨w, hw, by simp [window_fetches]⟩

/-- C2 witness: with one window `("3", 5, 9)` both spans fetched are
`(5, 10)`. -/
theorem window_fetches_one_past_end_witness :
    Fetch.seq "3" 5 (9 + 1) ∈ (View.parse_region env_one "output/" "3" 0 100 false).2.1 ∧
    Fetch.pileup "3" 5 (9 + 1) ∈ (View.parse_region env_one "output/" "3" 0 100 false).2.1 :=
  window_fetches_one_past_end env_one "output/" "3" 0 100 false ("3", 5, 9)
    (by simp [region_windows, env_one])

/-- C3: the assembled region result holds one candidate-list object per
window, in exactly the Window Detector's output order — the `i`-th entry of
`all_candidates` is the loop body applied to the `i`-th window. -/
theorem region_result_preserves_window_order {ρ π α : Type} (env : Env ρ π α)
    (output_dir chr : String) (s e : Nat) (json : Bool) :
    (View.parse_region env output_dir chr s e json).1.all_candidates.length =
      (region_windows env chr s e).length ∧
    ∀ i : Nat, (View.parse_region env output_dir chr s e json).1.all_candidates[i]? =
      ((region_windows env chr s e)[i]?).map (window_candidates env) := by
  have hca : (View.parse_region env output_dir chr s e json).1.all_candidates =
      (region_windows env chr s e).map (window_candidates env) := rfl
  constructor
  · rw [hca]
    exact List.length_map _ _
  · intro i
    rw [hca]
    exact List.getElem?_map ..

/-- C4: a region in which the Window Detector finds zero windows yields a
result carrying the region's chromosome, start and end with an empty window
list — no error. -/
theorem empty_region_result {ρ π α : Type} (env : Env ρ π α)
    (output_dir chr : String) (s e : Nat) (json : Bool)
    (h : region_windows env chr s e = []) :
    (View.parse_region env output_dir chr s e json).1 =
      { chromosome_name := chr, start_position := s, end_position := e,
        all_candidates := [] } := by
  have hca : (View.parse_region env output_dir chr s e json).1 =
      { chromosome_name := chr, start_position := s, end_position := e,
        all_candidates := (region_windows env chr s e).map (window_candidates env) } := rfl
  rw [hca, h]
  rfl

/-- C4 witness: a concrete windowless region. -/
theorem empty_region_result_witness :
    (View.parse_region env_unit "output/" "3" 0 10 true).1 =
      { chromosome_name := "3", start_position := 0, end_position := 10,
        all_candidates := ([] : List Nat) } :=
  empty_region_result env_unit "output/" "3" 0 10 true rfl

/-- C5: serializing is a pure side effect — the in-memory result assembled by
`parse_region` is identical with and without `json_out`, the artifact (when
requested) is derived from that unchanged result, and no artifact exists
otherwise. -/
theorem serialization_leaves_result_unchanged {ρ π α : Type} (env : Env ρ π α)
    (output_dir chr : String) (s e : Nat) :
    (View.parse_region env output_dir chr s e true).1 =
      (View.parse_region env output_dir chr s e false).1 ∧
    (View.parse_region env output_dir chr s e true).2.2 =
      some (write_json_artifact output_dir chr s e
        (View.parse_region env output_dir chr s e false).1) ∧
    (View.parse_region env output_dir chr s e false).2.2 = none :=
  ⟨rfl, rfl, rfl⟩

/-- Sorting the four fixed keys of `reprJSON` by key yields the fixed sorted
association list. -/
theorem dumps_reprJSON {α : Type} (r : AllCandidatesInRegion α) :
    dumps_sort_keys r.reprJSON =
      [("all_candidates", JVal.jlist r.all_candidates),
       ("chromosome_name", JVal.jstr r.chromosome_name),
       ("end_position", JVal.jnat r.end_position),
       ("start_position", JVal.jnat r.start_position)] := by
  have h1 : ¬ (("end_position" : String) ≤ "all_candidates") := by
    rw [String.le_iff_toList_le]; decide
  have h2 : ¬ (("start_position" : String) ≤ "all_candidates") := by
    rw [String.le_iff_toList_le]; decide
  have h3 : ¬ (("start_position" : String) ≤ "end_position") := by
    rw [String.le_iff_toList_le]; decide
  have h4 : ¬ (("chromosome_name" : String) ≤ "all_candidates") := by
    rw [String.le_iff_toList_le]; decide
  have h5 : (("chromosome_name" : String) ≤ "end_position") := by
    rw [String.le_iff_toList_le]; decide
  simp [dumps_sort_keys, AllCandidatesInRegion.reprJSON, insert_by_key, h1, h2, h3, h4, h5]

/-- C6: the artifact's path is `output_dir ++ "json_output/"` plus a file
name that is a function of only the chromosome name and the region bounds —
any two results with the same chromosome and bounds get the same name — and
the JSON document's keys are emitted in sorted order. -/
theorem artifact_name_and_sorted_keys {α : Type} (output_dir chromosome_name : String)
    (start stop : Nat) (r r' : AllCandidatesInRegion α) :
    (write_json_artifact output_dir chromosome_name start stop r).1 =
      output_dir ++ "json_output/" ++ json_file_name chromosome_name start stop ∧
    (write_json_artifact output_dir chromosome_name start stop r).1 =
      (write_json_artifact output_dir chromosome_name start stop r').1 ∧
    List.Sorted (· < ·)
      ((write_json_artifact output_dir chromosome_name start stop r).2.map Prod.fst) := by
  refine ⟨rfl, rfl, ?_⟩
  have hk : (write_json_artifact output_dir chromosome_name start stop r).2.map Prod.fst =
      ["all_candidates", "chromosome_name", "end_position", "start_position"] := by
    simp [write_json_artifact, dumps_reprJSON r]
  rw [hk, List.Sorted, ← List.chain'_iff_pairwise]
  simp only [List.chain'_cons, List.chain'_singleton, and_true, String.lt_iff_toList_lt]
  exact ⟨by decide, by decide, by decide⟩

/-- C10: the artifact is written into the `json_output/` subdirectory of the
output directory at the path
`output_dir ++ "json_output/Candidates_<chrom>_<start>_<end>.json"`; the
subdirectory is created by `write_json` itself when absent, so with a fresh
(existing) output directory the write succeeds. -/
theorem artifact_written_under_json_output {α : Type} (dirs : List String)
    (output_dir chromosome_name : String) (start stop : Nat)
    (r : AllCandidatesInRegion α) (h : output_dir ∈ dirs) :
    ∃ dirs', write_json_io dirs output_dir chromosome_name start stop r =
        Except.ok (dirs',
          (output_dir ++ "json_output/" ++ "Candidates" ++ "_" ++ chromosome_name ++ "_" ++
            toString start ++ "_" ++ toString stop ++ ".json",
          dumps_sort_keys r.reprJSON)) ∧
      (output_dir ++ "json_output/") ∈ dirs' := by
  by_cases hsub : (output_dir ++ "json_output/") ∈ dirs
  · refine ⟨dirs, ?_, hsub⟩
    simp only [write_json_io, hsub, if_true, write_json_artifact, json_file_name,
      String.append_assoc, if_pos]
  · refine ⟨(output_dir ++ "json_output/") :: dirs, ?_, List.mem_cons_self _ _⟩
    simp only [write_json_io, hsub, if_false, os_mkdir, h, write_json_artifact,
      json_file_name, String.append_assoc, if_neg, not_false_eq_true, if_pos,
      List.mem_cons, true_or, or_true]

/-- C10 witness: first write in a fresh output directory. -/
theorem artifact_written_under_json_output_witness :
    ∃ dirs', write_json_io ["output/"] "output/" "3" 1 2
        (⟨"3", 1, 2, ([] : List Nat)⟩ : AllCandidatesInRegion Nat) =
        Except.ok (dirs',
          ("output/" ++ "json_output/" ++ "Candidates" ++ "_" ++ "3" ++ "_" ++
            toString 1 ++ "_" ++ toString 2 ++ ".json",
          dumps_sort_keys (⟨"3", 1, 2, ([] : List Nat)⟩ : AllCandidatesInRegion Nat).reprJSON)) ∧
      ("output/" ++ "json_output/") ∈ dirs' :=
  artifact_written_under_json_output ["output/"] "output/" "3" 1 2
    ⟨"3", 1, 2, ([] : List Nat)⟩ (List.mem_singleton.mpr rfl)

end AlignmentPolish
